import Mathlib

/-!
# Verification of the OneClassMetricLearning repository

Shallow embedding of the two source files of the repository:

* `src/legacy_notebooks/run_toy_2d_baselines.ipynb` — the boundary
  visualizer (`get_sk_contour`, `plot_sk_contour`), the model factory
  (`get_sk_model`) and the (duplicated) training routine
  (`train_plot_sk_model`).
* `src/experiments/run_mnist.sh` — the experiment driver looping over a
  fixed list of MNIST classes and a caller-specified repeat count.

Real numbers of the Python code are modelled by `ℚ` (the code only ever
builds exact arithmetic grids from the domain bounds; the numeric literal
`0.05` is exactly representable).  External collaborators (scikit-learn
fitting, plotly figures, the dataset loader) are abstract parameters:
only their call pattern is modelled, never their internals.
-/

namespace OCML

/-! ## Embedding of `run_toy_2d_baselines.ipynb` -/

/-- Model of `np.linspace(a, b, r)`: `r` evenly spaced samples from `a` to `b`
inclusive, i.e. `a + i * (b - a) / (r - 1)` for `i = 0, …, r - 1`.
(For `r = 1` numpy returns `[a]`; the formula agrees because division by
zero is zero in `ℚ`.) -/
def linspace (a b : ℚ) (r : ℕ) : List ℚ :=
  (List.range r).map (fun (i : ℕ) => a + (i : ℚ) * ((b - a) / ((r : ℚ) - 1)))

/-- Model of `np.meshgrid(xs, ys)`: a pair of matrices of shape
`(ys.length, xs.length)`; the first repeats `xs` along the rows, the
second repeats each `y` across a row. -/
def meshgrid (xs ys : List ℚ) : List (List ℚ) × List (List ℚ) :=
  (ys.map (fun _ => xs), ys.map (fun y => xs.map (fun _ => y)))

/-- Model of `.flatten()` of a 2-D array in row-major (C) order. -/
def np_flatten (m : List (List ℚ)) : List ℚ :=
  m.flatten

/-- Model of `np.stack([as, bs], axis=-1)` for two 1-D arrays of equal length:
pairing the entries. -/
def np_stack2 (as bs : List ℚ) : List (ℚ × ℚ) :=
  as.zip bs

/-- Model of `.reshape(...)`: cut a flat row-major list into rows
of length `ncols`.  Models numpy reshape in the exact-fit case in which
the notebook uses it (`z_grid.reshape(x_grid.shape)`). -/
def reshape_rows (ncols : ℕ) (flat : List ℚ) : List (List ℚ) :=
  if ncols = 0 ∨ flat = [] then []
  else flat.take ncols :: reshape_rows ncols (flat.drop ncols)
termination_by flat.length
decreasing_by
  rename_i h
  push_neg at h
  have h1 : 0 < ncols := Nat.pos_of_ne_zero h.1
  have h2 : 0 < flat.length := List.length_pos.mpr h.2
  simpa using Nat.sub_lt h2 h1

/-- Everything `get_sk_contour` returns:
`return z_grid, x_coords, y_coords, grid`. -/
structure ContourResult where
  z_grid : List (List ℚ)
  x_coords : List ℚ
  y_coords : List ℚ
  grid : List (ℚ × ℚ)
  deriving Repr, DecidableEq

/-- The function `get_sk_contour(model, domain, resolution)` from the notebook.  The
fitted model enters only through its batched `decision_function`, modelled
as the pointwise scoring function `score`. -/
def get_sk_contour (score : ℚ × ℚ → ℚ) (domain : ℚ × ℚ) (resolution : ℕ) :
    ContourResult :=
  let xmin := domain.1
  let xmax := domain.2
  let ymin := domain.1
  let ymax := domain.2
  let x_coords := linspace xmin xmax resolution
  let y_coords := linspace ymin ymax resolution
  let mg := meshgrid x_coords y_coords
  let x_grid := mg.1
  let y_grid := mg.2
  let grid := np_stack2 (np_flatten x_grid) (np_flatten y_grid)
  let z_flat := grid.map score
  let z_grid := reshape_rows x_coords.length z_flat
  ⟨z_grid, x_coords, y_coords, grid⟩

/-- The anomaly-detection model instances the factory can build, recording
exactly the constructor arguments the notebook passes to scikit-learn. -/
inductive SkModel where
  | IsolationForest (contamination : ℚ)
  | OneClassSVM (nu : ℚ) (kernel : String) (gamma : String)
  deriving Repr, DecidableEq

/-- The source's identifier for the isolation-forest model kind
(the notebook spells it `'if'`). -/
def isolation_forest_id : String := "if"

/-- The source's identifier for the one-class-SVM model kind
(the notebook spells it `'ocsvm'`). -/
def one_class_svm_id : String := "ocsvm"

/-- The model factory `get_sk_model(sk_model_name)` from the notebook.  In Python an
unrecognized name falls through both branches and `return sk_model`
raises `UnboundLocalError`; this fallible outcome is modelled by
`Option`, with `none` for "no model produced". -/
def get_sk_model (sk_model_name : String) : Option SkModel :=
  let outliers_fraction : ℚ := 0.05
  if sk_model_name = "if" then
    some (SkModel.IsolationForest outliers_fraction)
  else if sk_model_name = "ocsvm" then
    some (SkModel.OneClassSVM outliers_fraction "rbf" "scale")
  else
    none

/-- The ambient `config` object the notebook reads
(`config.dataset_name`, `config.num_pts`, `config.noise`,
`config.domain`). -/
structure Config where
  dataset_name : String
  num_pts : ℕ
  noise : ℚ
  domain : ℚ × ℚ

/-- The external collaborators of the notebook (dataset loader,
scikit-learn fitting, the fitted model's scoring call, plotly figure
mutation), abstracted over the opaque types `Data` (an array of
samples), `Fitted` (a fitted scikit-learn model) and `Fig` (a plotly
figure).  Only their call pattern matters to the claims. -/
structure Externals (Data Fitted Fig : Type) where
  load_toy_2d : String → ℕ → ℚ → Data × Data
  default_process : Data × Data → Data × Data
  fit : SkModel → Data → Data → Fitted
  decision_function : Fitted → ℚ × ℚ → ℚ
  add_contour : Fig → ℕ → ContourResult → Fig
  add_scatter : Fig → ℕ → Data → Fig

variable {Data Fitted Fig : Type}

/-- The function `plot_sk_contour(model, X, y, fig, col, domain=None)` from the
notebook: defaults the domain to `config.domain`, computes the contour at
resolution 300 and adds the contour trace then the scatter trace to the
figure at column `col`. -/
def plot_sk_contour (E : Externals Data Fitted Fig) (config : Config)
    (model : Fitted) (X : Data) (_y : Data) (fig : Fig) (col : ℕ)
    (domain : Option (ℚ × ℚ)) : Fig :=
  let domain := match domain with
    | none => config.domain
    | some d => d
  let res := get_sk_contour (E.decision_function model) domain 300
  let fig := E.add_contour fig col res
  let fig := E.add_scatter fig col X
  fig

/-- The first definition of `train_plot_sk_model` (notebook cell 3).
Returns `none` when the model factory falls through (the Python
`UnboundLocalError` propagates), otherwise the figure after plotting. -/
def train_plot_sk_model_v1 (E : Externals Data Fitted Fig) (config : Config)
    (fig : Fig) (col : ℕ) (ds_name : String) (sk_model_name : String)
    (domain : ℚ × ℚ) : Option Fig :=
  let Xy := E.load_toy_2d config.dataset_name config.num_pts config.noise
  let Xy := E.default_process Xy
  (get_sk_model sk_model_name).map (fun sk_model =>
    let fitted := E.fit sk_model Xy.1 Xy.2
    plot_sk_contour E config fitted Xy.1 Xy.2 fig col (some domain))

/-- The second definition of `train_plot_sk_model` (notebook cell 4),
which in Python silently rebinds the same name. -/
def train_plot_sk_model_v2 (E : Externals Data Fitted Fig) (config : Config)
    (fig : Fig) (col : ℕ) (ds_name : String) (sk_model_name : String)
    (domain : ℚ × ℚ) : Option Fig :=
  let Xy := E.load_toy_2d config.dataset_name config.num_pts config.noise
  let Xy := E.default_process Xy
  (get_sk_model sk_model_name).map (fun sk_model =>
    let fitted := E.fit sk_model Xy.1 Xy.2
    plot_sk_contour E config fitted Xy.1 Xy.2 fig col (some domain))

/-! ## Embedding of `experiments/run_mnist.sh` -/

/-- The fixed list of target classes of the driver:
`for c in 0 1 2 3 5 6 7 9`. -/
def mnist_classes : List ℕ := [0, 1, 2, 3, 5, 6, 7, 9]

/-- The environment a single sub-invocation runs under:
`PLOTLY_RENDERER=png DATASET_NAME=mnist IN_CLASS=$c WANDB_GROUP=mnist${c}_$2`. -/
structure Env where
  plotly_renderer : String
  dataset_name : String
  in_class : ℕ
  wandb_group : String
  deriving Repr, DecidableEq

/-- The environment variables the driver sets for class `c` and
caller-supplied tag `$2`. -/
def run_env (c : ℕ) (tag : String) : Env :=
  { plotly_renderer := "png"
    dataset_name := "mnist"
    in_class := c
    wandb_group := "mnist" ++ toString c ++ "_" ++ tag }

/-- The repeat indices `1, …, n` produced by `` `seq 1 n` `` of the inner loop. -/
def seq_from_1 (n : ℕ) : List ℕ :=
  (List.range n).map (· + 1)

/-- The inner loop `for i in `seq 1 $1`; do … done` over a list of repeat
indices, for target class `c`.  Each iteration runs the training script
under `run_env c tag` and observes its exit status via `exit_code`; bash
has no `set -e` here, so the loop continues to the next iteration
unconditionally.  The trace records each issued invocation as
`((class, repeat index, environment), exit status)`. -/
def inner_loop (exit_code : ℕ → ℕ → ℕ) (tag : String) (c : ℕ) :
    List ℕ → List ((ℕ × ℕ × Env) × ℕ)
  | [] => []
  | i :: is => ((c, i, run_env c tag), exit_code c i) :: inner_loop exit_code tag c is

/-- The outer loop `for c in 0 1 2 3 5 6 7 9; do … done` over a list of
classes, running the inner loop for each. -/
def outer_loop (exit_code : ℕ → ℕ → ℕ) (tag : String) (n : ℕ) :
    List ℕ → List ((ℕ × ℕ × Env) × ℕ)
  | [] => []
  | c :: cs => inner_loop exit_code tag c (seq_from_1 n) ++ outer_loop exit_code tag n cs

/-- The whole driver `run_mnist.sh n tag`: the trace of training
sub-invocations, in order, given the exit status `exit_code c i` each
invocation would return. -/
def run_driver (exit_code : ℕ → ℕ → ℕ) (n : ℕ) (tag : String) :
    List ((ℕ × ℕ × Env) × ℕ) :=
  outer_loop exit_code tag n mnist_classes

/-- The invocations the driver issues (dropping the observed exit
statuses from the trace). -/
def driver_invocations (exit_code : ℕ → ℕ → ℕ) (n : ℕ) (tag : String) :
    List (ℕ × ℕ × Env) :=
  (run_driver exit_code n tag).map Prod.fst

/-! ## Helper lemmas about the contour pipeline -/

lemma linspace_length (a b : ℚ) (r : ℕ) : (linspace a b r).length = r := by
  simp [linspace]

lemma linspace_getD (a b : ℚ) (r i : ℕ) (hi : i < r) :
    (linspace a b r).getD i 0 = a + (i : ℚ) * ((b - a) / ((r : ℚ) - 1)) := by
  rw [linspace, List.getD_eq_getElem _ _ (by simpa using hi), List.getElem_map,
    List.getElem_range]

lemma linspace_first (a b : ℚ) (r : ℕ) (hr : 0 < r) :
    (linspace a b r).getD 0 0 = a := by
  rw [linspace_getD a b r 0 hr]
  simp

lemma linspace_last (a b : ℚ) (r : ℕ) (hr : 2 ≤ r) :
    (linspace a b r).getD (r - 1) 0 = b := by
  rw [linspace_getD a b r (r - 1) (by omega)]
  have hr1 : ((r : ℚ) - 1) ≠ 0 := by
    have h2 : (2 : ℚ) ≤ (r : ℚ) := by exact_mod_cast hr
    linarith
  have hcast : ((r - 1 : ℕ) : ℚ) = (r : ℚ) - 1 := by
    have h1 : 1 ≤ r := by omega
    push_cast [h1]
    ring
  rw [hcast]
  field_simp

lemma linspace_pairwise (a b : ℚ) (r : ℕ) (hab : a < b) (hr : 2 ≤ r) :
    (linspace a b r).Pairwise (· < ·) := by
  rw [linspace, List.pairwise_iff_getElem]
  intro i j hi hj hij
  simp only [List.getElem_map, List.getElem_range]
  have hs : 0 < (b - a) / ((r : ℚ) - 1) := by
    apply div_pos (by linarith)
    have h2 : (2 : ℚ) ≤ (r : ℚ) := by exact_mod_cast hr
    linarith
  have hij' : (i : ℚ) < (j : ℚ) := by exact_mod_cast hij
  have := mul_lt_mul_of_pos_right hij' hs
  linarith

lemma zip_self_map_const (xs : List ℚ) (y : ℚ) :
    xs.zip (xs.map (fun _ => y)) = xs.map (fun x => (x, y)) := by
  induction xs with
  | nil => rfl
  | cons x xs ih => simp only [List.map_cons, List.zip_cons_cons, ih]

/-- Stacking the two flattened meshgrid matrices pairs each `x` with each
`y`, iterating `y` outer and `x` inner. -/
lemma meshgrid_zip (xs ys : List ℚ) :
    (np_flatten (meshgrid xs ys).1).zip (np_flatten (meshgrid xs ys).2) =
      (ys.map (fun y => xs.map (fun x => (x, y)))).flatten := by
  induction ys with
  | nil => rfl
  | cons y ys ih =>
      simp only [meshgrid, np_flatten, List.map_cons, List.flatten_cons] at ih ⊢
      rw [List.zip_append (by simp), zip_self_map_const]
      rw [ih]

/-- Reshaping the row-major flattening of a rectangular matrix recovers
the matrix. -/
lemma reshape_rows_flatten (n : ℕ) (hn : 0 < n) :
    ∀ m : List (List ℚ), (∀ row ∈ m, row.length = n) →
      reshape_rows n m.flatten = m := by
  intro m
  induction m with
  | nil =>
      intro _
      rw [reshape_rows]
      simp
  | cons row rest ih =>
      intro h
      have hrow : row.length = n := h row (by simp)
      have hne : row ++ rest.flatten ≠ [] := by
        have : row ≠ [] := by
          intro hemp
          rw [hemp] at hrow
          simp at hrow
          omega
        simp [this]
      rw [List.flatten_cons, reshape_rows,
        if_neg (by push_neg; exact ⟨by omega, hne⟩)]
      rw [← hrow, List.take_left, List.drop_left, hrow]
      rw [ih (fun r hr => h r (List.mem_cons_of_mem _ hr))]

lemma get_sk_contour_x_coords (score : ℚ × ℚ → ℚ) (domain : ℚ × ℚ) (r : ℕ) :
    (get_sk_contour score domain r).x_coords = linspace domain.1 domain.2 r := rfl

lemma get_sk_contour_y_coords (score : ℚ × ℚ → ℚ) (domain : ℚ × ℚ) (r : ℕ) :
    (get_sk_contour score domain r).y_coords = linspace domain.1 domain.2 r := rfl

/-- The flat grid of `get_sk_contour` is the Cartesian product of the
coordinates, `y` outer, `x` inner. -/
lemma get_sk_contour_grid (score : ℚ × ℚ → ℚ) (domain : ℚ × ℚ) (r : ℕ) :
    (get_sk_contour score domain r).grid =
      ((linspace domain.1 domain.2 r).map
        (fun y => (linspace domain.1 domain.2 r).map (fun x => (x, y)))).flatten := by
  simp only [get_sk_contour]
  exact meshgrid_zip _ _

/-- The score surface of `get_sk_contour`, in closed form: the row of
outer index `j` (the `y` index) holds the scores of `(x, y_j)` for `x`
running over the `x`-coordinates. -/
lemma get_sk_contour_z_grid (score : ℚ × ℚ → ℚ) (domain : ℚ × ℚ) (r : ℕ)
    (hr : 0 < r) :
    (get_sk_contour score domain r).z_grid =
      (linspace domain.1 domain.2 r).map
        (fun y => (linspace domain.1 domain.2 r).map (fun x => score (x, y))) := by
  simp only [get_sk_contour, np_stack2]
  rw [meshgrid_zip, List.map_flatten, List.map_map]
  have hcomp :
      (List.map score ∘ fun y => List.map (fun x => (x, y)) (linspace domain.1 domain.2 r)) =
        fun y => (linspace domain.1 domain.2 r).map (fun x => score (x, y)) := by
    funext y
    simp [List.map_map, Function.comp_def]
  rw [hcomp]
  apply reshape_rows_flatten _ (by rw [linspace_length]; exact hr)
  intro row hrow
  obtain ⟨y, _, rfl⟩ := List.mem_map.mp hrow
  simp

/-- The score surface has one row per `y`-coordinate, each row one entry
per `x`-coordinate. -/
lemma z_grid_shape (score : ℚ × ℚ → ℚ) (domain : ℚ × ℚ) (r : ℕ) (hr : 0 < r) :
    (get_sk_contour score domain r).z_grid.map List.length = List.replicate r r := by
  rw [get_sk_contour_z_grid score domain r hr, List.map_map]
  have hconst :
      (List.length ∘ fun y => (linspace domain.1 domain.2 r).map (fun x => score (x, y))) =
        Function.const ℚ r := by
    funext y
    simp [linspace_length]
  rw [hconst, List.map_const, linspace_length]

/-! ## Helper lemmas about the experiment driver -/

lemma inner_loop_fst (exit_code : ℕ → ℕ → ℕ) (tag : String) (c : ℕ)
    (is : List ℕ) :
    (inner_loop exit_code tag c is).map Prod.fst =
      is.map (fun i => (c, i, run_env c tag)) := by
  induction is with
  | nil => rfl
  | cons i is ih => simp only [inner_loop, List.map_cons, ih]

lemma outer_loop_fst (exit_code : ℕ → ℕ → ℕ) (tag : String) (n : ℕ)
    (cs : List ℕ) :
    (outer_loop exit_code tag n cs).map Prod.fst =
      cs.flatMap (fun c => (seq_from_1 n).map (fun i => (c, i, run_env c tag))) := by
  induction cs with
  | nil => rfl
  | cons c cs ih =>
      simp only [outer_loop, List.map_append, inner_loop_fst, ih, List.flatMap_cons]

/-- The invocations the driver issues, in closed form: for each class in
order, the repeat indices `1, …, n` in order, each under the environment
derived from the class and the tag.  The exit statuses of the runs do not
appear: bash executes the loop body unconditionally. -/
lemma driver_invocations_eq (exit_code : ℕ → ℕ → ℕ) (n : ℕ) (tag : String) :
    driver_invocations exit_code n tag =
      mnist_classes.flatMap
        (fun c => (seq_from_1 n).map (fun i => (c, i, run_env c tag))) := by
  simp only [driver_invocations, run_driver, outer_loop_fst]

/-! ## Claim theorems -/

/-- C1: For every fitted model (its scoring function), domain `[a, b]`
and resolution `r ≥ 2`, the score surface returned by `get_sk_contour` has
shape `r × r`, and its value at the grid position of the point `(x_i, y_j)`
equals the scoring function at `(x_i, y_j)`; under the documented
iteration-order convention (`y` outer, `x` inner) that position is outer
(row) index `j`, inner (column) index `i` of the surface. -/
theorem C1_score_surface (score : ℚ × ℚ → ℚ) (domain : ℚ × ℚ) (r i j : ℕ)
    (hr : 2 ≤ r) (hi : i < r) (hj : j < r) :
    (get_sk_contour score domain r).z_grid.map List.length = List.replicate r r ∧
    ((get_sk_contour score domain r).z_grid.getD j []).getD i 0 =
      score ((get_sk_contour score domain r).x_coords.getD i 0,
             (get_sk_contour score domain r).y_coords.getD j 0) := by
  have h0 : 0 < r := by omega
  refine ⟨z_grid_shape score domain r h0, ?_⟩
  rw [get_sk_contour_z_grid score domain r h0, get_sk_contour_x_coords,
    get_sk_contour_y_coords]
  have hj' : j < (linspace domain.1 domain.2 r).length := by
    rw [linspace_length]; exact hj
  have hi' : i < (linspace domain.1 domain.2 r).length := by
    rw [linspace_length]; exact hi
  have hrow :
      ((linspace domain.1 domain.2 r).map
          (fun y => (linspace domain.1 domain.2 r).map (fun x => score (x, y)))).getD j [] =
        (linspace domain.1 domain.2 r).map
          (fun x => score (x, (linspace domain.1 domain.2 r).getD j 0)) := by
    rw [List.getD_eq_getElem _ _ (by simpa using hj'), List.getElem_map,
      List.getD_eq_getElem _ _ hj']
  rw [hrow, List.getD_eq_getElem _ _ (by simpa using hi'), List.getElem_map,
    List.getD_eq_getElem _ _ hi']

/-- C1, witness: at `score (x, y) = x + 2 y`, domain `[0, 2]`,
resolution `3`, position `i = 1`, `j = 2`. -/
theorem C1_score_surface_witness :
    (get_sk_contour (fun p => p.1 + 2 * p.2) (0, 2) 3).z_grid.map List.length =
        List.replicate 3 3 ∧
    ((get_sk_contour (fun p => p.1 + 2 * p.2) (0, 2) 3).z_grid.getD 2 []).getD 1 0 =
      (fun p : ℚ × ℚ => p.1 + 2 * p.2)
        ((get_sk_contour (fun p => p.1 + 2 * p.2) (0, 2) 3).x_coords.getD 1 0,
         (get_sk_contour (fun p => p.1 + 2 * p.2) (0, 2) 3).y_coords.getD 2 0) :=
  C1_score_surface (fun p => p.1 + 2 * p.2) (0, 2) 3 1 2 (by norm_num)
    (by norm_num) (by norm_num)

/-- C2: The model factory, given the identifier for the
isolation-forest kind (spelled `'if'` in the source), returns an
`IsolationForest` with contamination exactly `0.05`; given the identifier
for the one-class-SVM kind (spelled `'ocsvm'`), it returns a `OneClassSVM`
with `nu = 0.05`, the radial-basis-function kernel `"rbf"`, and
auto-scaled bandwidth `gamma = "scale"`. -/
theorem C2_model_factory :
    get_sk_model isolation_forest_id = some (SkModel.IsolationForest 0.05) ∧
    get_sk_model one_class_svm_id =
      some (SkModel.OneClassSVM 0.05 "rbf" "scale") :=
  ⟨rfl, rfl⟩

/-- C3: For every domain pair `[a, b]` with `a < b` and resolution
`r ≥ 2`, each of the two coordinate sequences returned by
`get_sk_contour` has exactly `r` elements, is (strictly) monotonically
increasing, and has first element `a` and last element `b`. -/
theorem C3_coords (score : ℚ × ℚ → ℚ) (a b : ℚ) (r : ℕ)
    (hab : a < b) (hr : 2 ≤ r) :
    ((get_sk_contour score (a, b) r).x_coords.length = r ∧
     (get_sk_contour score (a, b) r).x_coords.Pairwise (· < ·) ∧
     (get_sk_contour score (a, b) r).x_coords.getD 0 0 = a ∧
     (get_sk_contour score (a, b) r).x_coords.getD (r - 1) 0 = b) ∧
    ((get_sk_contour score (a, b) r).y_coords.length = r ∧
     (get_sk_contour score (a, b) r).y_coords.Pairwise (· < ·) ∧
     (get_sk_contour score (a, b) r).y_coords.getD 0 0 = a ∧
     (get_sk_contour score (a, b) r).y_coords.getD (r - 1) 0 = b) := by
  rw [get_sk_contour_x_coords, get_sk_contour_y_coords]
  exact ⟨⟨linspace_length a b r, linspace_pairwise a b r hab hr,
      linspace_first a b r (by omega), linspace_last a b r hr⟩,
    ⟨linspace_length a b r, linspace_pairwise a b r hab hr,
      linspace_first a b r (by omega), linspace_last a b r hr⟩⟩

/-- C3, witness: at `score (x, y) = x`, domain `[0, 2]`,
resolution `3`. -/
theorem C3_coords_witness :
    ((get_sk_contour (fun p => p.1) (0, 2) 3).x_coords.length = 3 ∧
     (get_sk_contour (fun p => p.1) (0, 2) 3).x_coords.Pairwise (· < ·) ∧
     (get_sk_contour (fun p => p.1) (0, 2) 3).x_coords.getD 0 0 = 0 ∧
     (get_sk_contour (fun p => p.1) (0, 2) 3).x_coords.getD (3 - 1) 0 = 2) ∧
    ((get_sk_contour (fun p => p.1) (0, 2) 3).y_coords.length = 3 ∧
     (get_sk_contour (fun p => p.1) (0, 2) 3).y_coords.Pairwise (· < ·) ∧
     (get_sk_contour (fun p => p.1) (0, 2) 3).y_coords.getD 0 0 = 0 ∧
     (get_sk_contour (fun p => p.1) (0, 2) 3).y_coords.getD (3 - 1) 0 = 2) :=
  C3_coords (fun p => p.1) 0 2 3 (by norm_num) (by norm_num)

/-- C4, counterexample: with repeat count 2 and tag `"xp1"`, the first
two sub-invocations of the driver carry the distinct (class, repeat-index)
pairs `(0, 1)` and `(0, 2)`, yet their environment variables are
identical: the environment reflects the class but not the repeat index,
so a distinct pair is *not* reflected in the environment variables. -/
theorem C4_pair_not_reflected_in_env :
    ((driver_invocations (fun _ _ => 0) 2 "xp1").getD 0 (0, 0, run_env 0 "")).1 = 0 ∧
    ((driver_invocations (fun _ _ => 0) 2 "xp1").getD 0 (0, 0, run_env 0 "")).2.1 = 1 ∧
    ((driver_invocations (fun _ _ => 0) 2 "xp1").getD 1 (0, 0, run_env 0 "")).1 = 0 ∧
    ((driver_invocations (fun _ _ => 0) 2 "xp1").getD 1 (0, 0, run_env 0 "")).2.1 = 2 ∧
    ((driver_invocations (fun _ _ => 0) 2 "xp1").getD 0 (0, 0, run_env 0 "")).2.2 =
      ((driver_invocations (fun _ _ => 0) 2 "xp1").getD 1 (0, 0, run_env 0 "")).2.2 := by
  decide

/-- C4 (amended): invoked with repeat count 2, the driver issues
exactly 16 sequential sub-invocations (8 fixed target classes × 2
repeats), one per distinct (class, repeat-index) pair, in order; the
environment variables of each invocation reflect its class (through
`IN_CLASS` and the class-and-tag-derived run-group name) but not its
repeat index: the environment is a function of the class and the tag
alone. -/
theorem C4_sixteen_invocations (exit_code : ℕ → ℕ → ℕ) (tag : String) :
    (driver_invocations exit_code 2 tag).length = 16 ∧
    (driver_invocations exit_code 2 tag).map (fun p => (p.1, p.2.1)) =
      [(0, 1), (0, 2), (1, 1), (1, 2), (2, 1), (2, 2), (3, 1), (3, 2),
       (5, 1), (5, 2), (6, 1), (6, 2), (7, 1), (7, 2), (9, 1), (9, 2)] ∧
    ((driver_invocations exit_code 2 tag).map (fun p => (p.1, p.2.1))).Nodup ∧
    (driver_invocations exit_code 2 tag).map (fun p => p.2.2) =
      (driver_invocations exit_code 2 tag).map (fun p => run_env p.1 tag) := by
  have h : driver_invocations exit_code 2 tag =
      [(0, 1, run_env 0 tag), (0, 2, run_env 0 tag),
       (1, 1, run_env 1 tag), (1, 2, run_env 1 tag),
       (2, 1, run_env 2 tag), (2, 2, run_env 2 tag),
       (3, 1, run_env 3 tag), (3, 2, run_env 3 tag),
       (5, 1, run_env 5 tag), (5, 2, run_env 5 tag),
       (6, 1, run_env 6 tag), (6, 2, run_env 6 tag),
       (7, 1, run_env 7 tag), (7, 2, run_env 7 tag),
       (9, 1, run_env 9 tag), (9, 2, run_env 9 tag)] := by
    rw [driver_invocations_eq]
    simp [mnist_classes, seq_from_1, List.range_succ]
  have hpairs : (driver_invocations exit_code 2 tag).map (fun p => (p.1, p.2.1)) =
      [(0, 1), (0, 2), (1, 1), (1, 2), (2, 1), (2, 2), (3, 1), (3, 2),
       (5, 1), (5, 2), (6, 1), (6, 2), (7, 1), (7, 2), (9, 1), (9, 2)] := by
    rw [h]
    rfl
  refine ⟨by rw [h]; rfl, hpairs, ?_, by rw [h]; rfl⟩
  rw [hpairs]
  decide

/-- C5: For every identifier not in the recognized set, the model
factory falls through without producing a model (`none`). -/
theorem C5_fallthrough (name : String)
    (h1 : name ≠ isolation_forest_id) (h2 : name ≠ one_class_svm_id) :
    get_sk_model name = none := by
  rw [isolation_forest_id] at h1
  rw [one_class_svm_id] at h2
  simp [get_sk_model, h1, h2]

/-- C5, witness: at the unrecognized identifier `"bogus"`. -/
theorem C5_fallthrough_witness :
    get_sk_model "bogus" = none :=
  C5_fallthrough "bogus" (by decide) (by decide)

/-- C6: With resolution 3 and domain `[0, 2]`, `get_sk_contour`
produces x-coordinates `[0, 1, 2]`, y-coordinates `[0, 1, 2]`, and a
flat grid of exactly 9 points which is the full Cartesian product of
these coordinates (`y` outer, `x` inner). -/
theorem C6_concrete_grid (score : ℚ × ℚ → ℚ) :
    (get_sk_contour score (0, 2) 3).x_coords = [0, 1, 2] ∧
    (get_sk_contour score (0, 2) 3).y_coords = [0, 1, 2] ∧
    (get_sk_contour score (0, 2) 3).grid.length = 9 ∧
    (get_sk_contour score (0, 2) 3).grid =
      [(0, 0), (1, 0), (2, 0), (0, 1), (1, 1), (2, 1),
       (0, 2), (1, 2), (2, 2)] := by
  have hx : linspace 0 2 3 = [0, 1, 2] := by
    simp [linspace, List.range_succ]
    norm_num
  have hg : (get_sk_contour score (0, 2) 3).grid =
      [(0, 0), (1, 0), (2, 0), (0, 1), (1, 1), (2, 1),
       (0, 2), (1, 2), (2, 2)] := by
    rw [get_sk_contour_grid]
    simp only [hx]
    rfl
  exact ⟨hx, hx, by rw [hg]; rfl, hg⟩

/-- C7: The issued sub-invocations of the driver — their number, their
order and their environments — are independent of the exit statuses of the
individual training runs: the failure of any single run does not abort
the loop, and every subsequent (class, repeat-index) invocation is still
issued in the same order. -/
theorem C7_continue_on_failure (exit_code exit_code' : ℕ → ℕ → ℕ) (n : ℕ)
    (tag : String) :
    driver_invocations exit_code n tag = driver_invocations exit_code' n tag := by
  rw [driver_invocations_eq, driver_invocations_eq]

/-- C8: For every scoring function, domain pair and resolution, the
evaluation region of `get_sk_contour` is a square: the x- and
y-coordinate sequences are equal, both derived from the same (min, max)
scalar pair, the flat grid's point count equals the product of the two
coordinate-sequence lengths, and the score surface's row lengths match
the grid dimensions (one row per y-coordinate, of one entry per
x-coordinate). -/
theorem C8_square_region (score : ℚ × ℚ → ℚ) (domain : ℚ × ℚ) (r : ℕ) :
    (get_sk_contour score domain r).x_coords = (get_sk_contour score domain r).y_coords ∧
    (get_sk_contour score domain r).x_coords = linspace domain.1 domain.2 r ∧
    (get_sk_contour score domain r).grid.length =
      (get_sk_contour score domain r).x_coords.length *
        (get_sk_contour score domain r).y_coords.length ∧
    (get_sk_contour score domain r).z_grid.map List.length =
      (get_sk_contour score domain r).y_coords.map
        (fun _ => (get_sk_contour score domain r).x_coords.length) := by
  refine ⟨rfl, rfl, ?_, ?_⟩
  · rw [get_sk_contour_grid, get_sk_contour_x_coords, get_sk_contour_y_coords,
      List.length_flatten, List.map_map]
    have hconst :
        (List.length ∘ fun y => (linspace domain.1 domain.2 r).map (fun x => (x, y))) =
          Function.const ℚ (linspace domain.1 domain.2 r).length := by
      funext y
      simp
    rw [hconst, List.map_const, List.sum_replicate, smul_eq_mul]
  · rcases Nat.eq_zero_or_pos r with h0 | h0
    · subst h0
      have hz : (get_sk_contour score domain 0).z_grid = [] := by
        simp only [get_sk_contour]
        rw [reshape_rows]
        simp [linspace]
      rw [hz, get_sk_contour_y_coords]
      simp [linspace]
    · rw [z_grid_shape score domain r h0, get_sk_contour_x_coords,
        get_sk_contour_y_coords, linspace_length]
      rw [show (fun (_ : ℚ) => r) = Function.const ℚ r from rfl, List.map_const,
        linspace_length]

/-- C9: The two successive notebook definitions of
`train_plot_sk_model` are identical: on every input (externals, ambient
configuration, figure, column, dataset name, model name, domain) they
produce the same result, so keeping only one leaves the program's
behavior unchanged. -/
theorem C9_duplicate_definitions {Data Fitted Fig : Type}
    (E : Externals Data Fitted Fig) (config : Config) (fig : Fig) (col : ℕ)
    (ds_name sk_model_name : String) (domain : ℚ × ℚ) :
    train_plot_sk_model_v1 E config fig col ds_name sk_model_name domain =
      train_plot_sk_model_v2 E config fig col ds_name sk_model_name domain := rfl

/-- C10: the routine `train_plot_sk_model` does not depend on its `ds_name`
parameter: for any two values of `ds_name`, all other arguments and the
ambient configuration held fixed, the computation is identical — the
dataset is selected by the ambient `config.dataset_name`, not by the
parameter. -/
theorem C10_ds_name_noninterference {Data Fitted Fig : Type}
    (E : Externals Data Fitted Fig) (config : Config) (fig : Fig) (col : ℕ)
    (ds_name ds_name' sk_model_name : String) (domain : ℚ × ℚ) :
    train_plot_sk_model_v1 E config fig col ds_name sk_model_name domain =
      train_plot_sk_model_v1 E config fig col ds_name' sk_model_name domain := rfl

end OCML
